import Mathlib

/-!
# Verification of the glm-coding-plan-statusline usage-aggregation core

Shallow embedding of the usage-data aggregation pipeline of the
`glm-coding-plan-statusline` repository (src/src/statusline.ts together with
its variant src/unnamed/part_000, src/src/utils/modelMapper.ts, and the data
shapes of src/src/types.ts).

Modelling conventions:
* JSON numbers (JavaScript doubles) are modelled as `ℚ`; all values appearing
  in the verified claims are integers far below 2^53, where double arithmetic
  on sums and the constants involved is exact.
* Timestamps (`Date.now()`, epoch milliseconds) are modelled as `Int`.
* Optional / possibly-absent JSON fields are modelled as `Option`.
* The local-time decomposition performed by JavaScript `Date` objects is
  modelled by an explicit parameter `bd : Int → DateParts` mapping an epoch-ms
  timestamp to its local calendar/clock parts.
* Network I/O is modelled by passing the (already parsed, shape-checked)
  responses of the three endpoints as explicit oracle values; a fetch whose
  request failed, timed out, returned non-200, returned unparsable JSON, or
  returned JSON of an unexpected shape is modelled as `none` (every such
  failure is caught inside the corresponding `fetch…` function in the source
  and mapped to that function's documented default). The list of endpoint
  requests issued by an aggregation call is returned explicitly so that
  "no network access" is a provable statement.
-/

/-- JavaScript `String.prototype.includes` on an explicit character list:
`leadsWith l p` holds when `p` occurs at the head of `l`. -/
def leadsWith : List Char → List Char → Bool
  | _, [] => true
  | [], _ :: _ => false
  | c :: cs, p :: ps => (c = p) && leadsWith cs ps

/-- `occursIn p l` : the pattern `p` occurs contiguously somewhere in `l`. -/
def occursIn (pat : List Char) : List Char → Bool
  | [] => pat.isEmpty
  | c :: cs => leadsWith (c :: cs) pat || occursIn pat cs

/-- JavaScript `s.includes(pat)` (contiguous substring containment). -/
def strContains (s pat : String) : Bool :=
  occursIn pat.toList s.toList

/-- JavaScript `Math.round`: round half toward positive infinity, i.e. the
floor of `q + 1/2` (`Rat.floor` is the mathematical floor, kept here in its
executable form). -/
def jsRound (q : ℚ) : Int := (q + 1 / 2).floor

/-- JavaScript `x || 0` on a possibly-absent number field: an absent field is
`undefined` (falsy) and yields `0`; a present value `0` is also falsy and
yields `0`, which coincides with the value itself. -/
def orQZero : Option ℚ → ℚ
  | none => 0
  | some v => v

/-- JavaScript `s.padStart(2, "0")`. -/
def padStart2 (s : String) : String :=
  if s.length ≥ 2 then s else String.mk (List.replicate (2 - s.length) '0') ++ s

/-- `String(n).padStart(2, "0")` as used for date/time components. -/
def pad2 (n : Int) : String := padStart2 (toString n)

/-- Local calendar/clock parts of a JavaScript `Date`, with exactly the values
the source reads through its getters: `getFullYear()`, `getMonth()` (0-based),
`getDate()`, `getHours()`, `getMinutes()`, `getSeconds()`. -/
structure DateParts where
  fullYear : Int
  month : Int
  date : Int
  hours : Int
  minutes : Int
  seconds : Int
deriving DecidableEq

/-- `Date.prototype.toDateString()` equality, i.e. the `date.toDateString()
=== now.toDateString()` test of the source. `toDateString` renders the local
weekday name, month name, zero-padded day and year; since the weekday is a
function of the (year, month, day) triple and the rendering of that triple is
injective, string equality coincides with equality of the local calendar-day
triple, which is how we model it. -/
def sameDateString (a b : DateParts) : Bool :=
  (a.fullYear == b.fullYear) && (a.month == b.month) && (a.date == b.date)

/-- The spec-side notion for C9: the two timestamps fall on the same local
calendar day. -/
def sameCalendarDay (a b : DateParts) : Prop :=
  a.fullYear = b.fullYear ∧ a.month = b.month ∧ a.date = b.date

instance (a b : DateParts) : Decidable (sameCalendarDay a b) := by
  unfold sameCalendarDay; infer_instance

/-- `formatResetTime` (src/unnamed/part_000, lines 449-462): format an
epoch-ms timestamp as `HH:mm` when it falls on the same local calendar day as
now (`new Date()`, modelled by the explicit `nowTs`), else `MM/dd HH:mm`.
`bd` models the local-time decomposition `new Date(timestamp)`. -/
def formatResetTime (bd : Int → DateParts) (timestamp nowTs : Int) : String :=
  let date := bd timestamp
  let now := bd nowTs
  let hours := pad2 date.hours
  let minutes := pad2 date.minutes
  if sameDateString date now then
    hours ++ ":" ++ minutes
  else
    let month := pad2 (date.month + 1)
    let day := pad2 date.date
    month ++ "/" ++ day ++ " " ++ hours ++ ":" ++ minutes

/-! ## Model name mapping (src/src/utils/modelMapper.ts) -/

def ANTHROPIC_DEFAULT_OPUS_MODEL : String := "GLM-4.7"
def ANTHROPIC_DEFAULT_SONNET_MODEL : String := "GLM-4.7"
def ANTHROPIC_DEFAULT_HAIKU_MODEL : String := "GLM-4.5-Air"

/-- `mapModelName` (src/src/utils/modelMapper.ts, lines 15-23). The falsy
test `!modelName` on a string is the empty-string test. -/
def mapModelName (modelName : String) : String :=
  if modelName = "" then modelName
  else if strContains modelName "Opus" then ANTHROPIC_DEFAULT_OPUS_MODEL
  else if strContains modelName "Sonnet" then ANTHROPIC_DEFAULT_SONNET_MODEL
  else if strContains modelName "Haiku" then ANTHROPIC_DEFAULT_HAIKU_MODEL
  else modelName

/-! ## Data shapes (src/src/types.ts) -/

/-- `UsageData` (src/src/types.ts, lines 138-147): every field optional. -/
structure UsageData where
  tokenPercent : Option Int
  mcpPercent : Option Int
  totalCost : Option String
  modelName : Option String
  timestamp : Option Int
  nextResetTime : Option Int
  nextResetTimeStr : Option String
  error : Option String
deriving DecidableEq

/-- `CacheData` (src/src/types.ts, lines 152-155). The timestamp is declared
`number` but a parsed cache file may lack it, hence `Option`. -/
structure CacheData where
  data : UsageData
  timestamp : Option Int
deriving DecidableEq

/-- One element of the quota endpoint's `data.limits` array; only the fields
the source reads. -/
structure LimitEntry where
  type : String
  percentage : Option ℚ
  nextResetTime : Option Int
deriving DecidableEq

/-- `QuotaData` (src/src/types.ts, lines 160-165). -/
structure QuotaData where
  tokenPercent : Int
  mcpPercent : Int
  nextResetTime : Option Int
  nextResetTimeStr : Option String
deriving DecidableEq

/-- One element of the model-usage endpoint's `data.list` array; only the
fields the source reads. -/
structure UsageRow where
  model : Option String
  inputTokens : Option ℚ
  outputTokens : Option ℚ
deriving DecidableEq

/-- `ModelUsageResult` (src/src/types.ts, lines 170-174). -/
structure ModelUsageResult where
  totalCost : String
  modelName : String
  hasData : Bool
deriving DecidableEq

/-! ## Cache validity (src/src/statusline.ts, lines 154-158) -/

def CACHE_DURATION : Int := 5000

/-- `isCacheValid` (src/src/statusline.ts, lines 154-158): `!cache` is the
null test, `!cache.timestamp` the falsy test on a number (absent or `0`), and
the result is `Date.now() - cache.timestamp < CACHE_DURATION` with `Date.now()`
passed explicitly as `now`. -/
def isCacheValid (cache : Option CacheData) (now : Int) : Bool :=
  match cache with
  | none => false
  | some c =>
    match c.timestamp with
    | none => false
    | some t => if t = 0 then false else decide (now - t < CACHE_DURATION)

/-- `shouldUseCache` (src/src/statusline.ts, lines 220-226), with the loaded
cache passed explicitly. -/
def shouldUseCache (cache : Option CacheData) (now : Int) : Option UsageData :=
  match cache with
  | some c => if isCacheValid (some c) now then some c.data else none
  | none => none

/-! ## Number formatting -/

/-- Rendering of a nonnegative hundredth count `m` as `"<int>.<2 digits>"`. -/
def centsToString (m : Nat) : String :=
  toString (m / 100) ++ "." ++ pad2 (Int.ofNat (m % 100))

/-- JavaScript `Number.prototype.toFixed(2)`: the integer `n` with `n / 100`
closest to the value (ties pick the larger `n`, i.e. round half toward
positive infinity), rendered with exactly two fractional digits. -/
def toFixed2 (q : ℚ) : String :=
  let n : Int := (q * 100 + 1 / 2).floor
  if n < 0 then "-" ++ centsToString (-n).toNat else centsToString n.toNat

/-- JavaScript `list[0].model || "Unknown"`: an absent or empty model string
falls back to `"Unknown"`. -/
def orUnknown : Option String → String
  | none => "Unknown"
  | some s => if s = "" then "Unknown" else s

/-! ## Quota fetch (src/unnamed/part_000, lines 468-506)

The variant in src/src/statusline.ts (lines 232-261) is the same function
minus the `nextResetTime` extraction; it produces the same `tokenPercent` and
`mcpPercent` fields, which are the only ones the aggregator consumes. -/

/-- Loop body of `fetchQuota`'s `for (const limit of limits)`: the
accumulator is `(tokenPercent, mcpPercent, nextResetTime)`. Both `if`s are
checked in sequence, each overwriting its fields, so within the iteration the
later assignment stands and across iterations the last matching entry wins. -/
def quotaStep (acc : Int × Int × Option Int) (limit : LimitEntry) :
    Int × Int × Option Int :=
  let acc :=
    if limit.type = "TOKENS_LIMIT" then
      (jsRound (orQZero limit.percentage), acc.2.1, limit.nextResetTime)
    else acc
  if limit.type = "TIME_LIMIT" then
    (acc.1, jsRound (orQZero limit.percentage), acc.2.2)
  else acc

/-- `fetchQuota` (src/unnamed/part_000, lines 468-506). `resp` is the parsed,
shape-checked response: `none` models a failed request or a response without
a `data.limits` array (both paths reach the final default return). The
ternary `nextResetTime ? formatResetTime(nextResetTime) : undefined` tests
truthiness, so a `0` timestamp yields no string. -/
def fetchQuota (resp : Option (List LimitEntry)) (bd : Int → DateParts)
    (nowTs : Int) : QuotaData :=
  match resp with
  | some limits =>
    let st := limits.foldl quotaStep (0, 0, none)
    let nextResetTimeStr : Option String :=
      match st.2.2 with
      | some t => if t = 0 then none else some (formatResetTime bd t nowTs)
      | none => none
    { tokenPercent := st.1, mcpPercent := st.2.1,
      nextResetTime := st.2.2, nextResetTimeStr := nextResetTimeStr }
  | none =>
    { tokenPercent := 0, mcpPercent := 0,
      nextResetTime := none, nextResetTimeStr := none }

/-! ## Model usage fetch (src/src/statusline.ts, lines 268-315) -/

/-- `fetchModelUsage` (src/src/statusline.ts, lines 268-315). `resp` is the
parsed, shape-checked response: `none` models a failed request or a response
without a `data.list` array; the guard also requires `list.length > 0`. -/
def fetchModelUsage (resp : Option (List UsageRow)) : ModelUsageResult :=
  match resp with
  | some (row0 :: rest) =>
    let list := row0 :: rest
    let totalInputTokens :=
      list.foldl (fun sum item => sum + orQZero item.inputTokens) 0
    let totalOutputTokens :=
      list.foldl (fun sum item => sum + orQZero item.outputTokens) 0
    let totalCost :=
      totalInputTokens / 1000000 * 3 + totalOutputTokens / 1000000 * 15
    let rawModelName := orUnknown row0.model
    { totalCost := toFixed2 totalCost,
      modelName := mapModelName rawModelName,
      hasData := true }
  | _ => { totalCost := "0.00", modelName := "Unknown", hasData := false }

/-! ## Tool usage fetch (src/src/statusline.ts, lines 322-341) -/

/-- `fetchToolUsage` (src/src/statusline.ts, lines 322-341): only the row
count of `data.list` is consumed; `Math.round` of an integer is itself. -/
def fetchToolUsage (resp : Option (List Unit)) : Int :=
  match resp with
  | some list =>
    if list.length > 0 then min 100 ((list.length : Int) * 5) else 0
  | none => 0

/-! ## Endpoint resolution (src/src/statusline.ts, lines 108-127) -/

/-- Endpoint resolution (src/src/statusline.ts, lines 108-127): the three
endpoint URLs are non-null exactly when the base URL is nonempty and contains
a supported domain (`api.z.ai` in the first branch, `open.bigmodel.cn` or
`dev.bigmodel.cn` in the second). Only their presence is consumed by the
aggregator's guard, so the URL strings themselves are not modelled. -/
def endpointsResolved (baseUrl : String) : Bool :=
  if baseUrl = "" then false
  else
    strContains baseUrl "api.z.ai" ||
    (strContains baseUrl "open.bigmodel.cn" ||
     strContains baseUrl "dev.bigmodel.cn")

/-! ## The aggregator (src/src/statusline.ts, lines 348-418) -/

/-- The `setup_required` snapshot returned at src/src/statusline.ts lines
357-363. -/
def setupRequiredSnapshot : UsageData :=
  { error := some "setup_required", modelName := some "Opus",
    tokenPercent := some 0, mcpPercent := some 0, totalCost := some "0.00",
    timestamp := none, nextResetTime := none, nextResetTimeStr := none }

/-- The oracle for one aggregation call: parsed, shape-checked responses of
the three endpoints (`none` = that fetch failed or had the wrong shape). -/
structure NetResponses where
  quota : Option (List LimitEntry)
  modelUsage : Option (List UsageRow)
  toolUsage : Option (List Unit)
deriving DecidableEq

/-- Result of one aggregation call: the returned snapshot together with the
list of endpoint requests it issued (each `fetch…` helper performs exactly
one `httpsGet` against its endpoint). -/
structure FetchResult where
  result : UsageData
  requests : List String
deriving DecidableEq

/-- `fetchUsageData` (src/src/statusline.ts, lines 348-418).

Explicit-state rendering of the orchestration: `cache` is the loaded cache
file, `nowTs` is `Date.now()`, `bd` the local-time decomposition, `resp` the
network oracle. The `Promise.allSettled` join always observes three
`fulfilled` results because each of `fetchQuota`, `fetchModelUsage` and
`fetchToolUsage` catches its own errors and returns its default, so the
`status === "fulfilled"` checks are modelled as direct use of the values, and
the surrounding `try` never reaches its `catch` (`error: "loading"`). The
cache check is performed before anything else; both early returns issue no
request, while the live path issues exactly the three endpoint requests. -/
def fetchUsageData (cache : Option CacheData) (authToken baseUrl : String)
    (nowTs : Int) (bd : Int → DateParts) (resp : NetResponses) : FetchResult :=
  match shouldUseCache cache nowTs with
  | some cachedData => { result := cachedData, requests := [] }
  | none =>
    if (authToken == "") || (baseUrl == "") || !(endpointsResolved baseUrl) then
      { result := setupRequiredSnapshot, requests := [] }
    else
      let quotaData := fetchQuota resp.quota bd nowTs
      let modelUsageData := fetchModelUsage resp.modelUsage
      let mcpPercent := fetchToolUsage resp.toolUsage
      let tokenPercent := quotaData.tokenPercent
      let finalMcpPercent := quotaData.mcpPercent
      let finalMcpPercent :=
        if mcpPercent > 0 then mcpPercent else finalMcpPercent
      let totalCost := modelUsageData.totalCost
      let modelName := modelUsageData.modelName
      { result :=
          { tokenPercent := some tokenPercent,
            mcpPercent := some finalMcpPercent,
            totalCost := some totalCost,
            modelName := some modelName,
            timestamp := some nowTs,
            nextResetTime := none, nextResetTimeStr := none,
            error := none },
        requests := ["quota/limit", "model-usage", "tool-usage"] }

/-- The invariant of claim C3: a snapshot handed to the presentation layer
has `tokenPercent`, `mcpPercent` and `totalCost` defined unless `error` is
set. -/
def snapshotWellFormed (s : UsageData) : Prop :=
  s.error ≠ none ∨
    (s.tokenPercent ≠ none ∧ s.mcpPercent ≠ none ∧ s.totalCost ≠ none)

instance (s : UsageData) : Decidable (snapshotWellFormed s) := by
  unfold snapshotWellFormed; infer_instance

/-! ## Shared helper lemmas and sample values -/

/-- Closed form of `mapModelName` as a priority cascade of substring tests
(the early `!modelName` return coincides with the final pass-through branch,
since the empty string contains none of the patterns). -/
lemma mapModelName_eq (s : String) :
    mapModelName s =
      if strContains s "Opus" then ANTHROPIC_DEFAULT_OPUS_MODEL
      else if strContains s "Sonnet" then ANTHROPIC_DEFAULT_SONNET_MODEL
      else if strContains s "Haiku" then ANTHROPIC_DEFAULT_HAIKU_MODEL
      else s := by
  unfold mapModelName
  by_cases hs : s = ""
  · subst hs; decide
  · simp [hs]

/-- An invalid cache never reaches the cache-hit branch. -/
lemma shouldUseCache_eq_none (cache : Option CacheData) (now : Int)
    (h : isCacheValid cache now = false) : shouldUseCache cache now = none := by
  cases cache with
  | none => rfl
  | some c => simp [shouldUseCache, h]

/-- A sample snapshot with no fields set. -/
def emptySnapshot : UsageData :=
  ⟨none, none, none, none, none, none, none, none⟩

/-- A sample well-formed snapshot, as written by a live aggregation. -/
def snapEx : UsageData :=
  ⟨some 50, some 10, some "1.00", some "GLM-4.7", some 100, none, none, none⟩

/-- A sample cache entry containing `snapEx` at timestamp 100. -/
def cacheEx : CacheData := ⟨snapEx, some 100⟩

/-- A sample local-time decomposition (constant). -/
def bdEx : Int → DateParts := fun _ => ⟨2026, 0, 21, 20, 16, 0⟩

/-- A sample network oracle in which all three fetches fail. -/
def respEx : NetResponses := ⟨none, none, none⟩

/-! ## C2 -/

/-- C2 counterexample: a cache entry with the future timestamp `T = 7000` at
current time `now = 1000` is reported valid by `isCacheValid` even though
`now - T = -6000 < 0`, so the claimed condition `0 ≤ now - T < 5000` is
violated by the code, which has no lower bound on `now - T`. -/
theorem C2_counterexample :
    isCacheValid (some ⟨emptySnapshot, some 7000⟩) 1000 = true ∧
    ¬(0 ≤ (1000 : Int) - 7000) := by
  decide

/-- C2 (amended): `isCacheValid` returns true iff the entry exists, its
timestamp `T` is present and nonzero, and `now - T < 5000`; there is no lower
bound, so a future timestamp (`now < T`) is also reported valid, while
`now - T ≥ 5000` is always reported invalid. -/
theorem C2_isCacheValid_iff (cache : Option CacheData) (now : Int) :
    isCacheValid cache now = true ↔
      ∃ c t, cache = some c ∧ c.timestamp = some t ∧ t ≠ 0 ∧
        now - t < CACHE_DURATION := by
  cases cache with
  | none => simp [isCacheValid]
  | some c =>
    cases ht : c.timestamp with
    | none => simp [isCacheValid, ht]
    | some t =>
      by_cases h0 : t = 0
      · simp [isCacheValid, ht, h0]
      · simp [isCacheValid, ht, h0]

/-! ## C8 -/

/-- C8: `mapModelName` is a pure cascade of case-sensitive substring tests in
the priority order `"Opus"`, `"Sonnet"`, `"Haiku"`, mapping to the three
configured display names; any other input, including the empty string, is
returned unchanged. -/
theorem C8_mapModelName_spec (s : String) :
    (strContains s "Opus" = true →
      mapModelName s = ANTHROPIC_DEFAULT_OPUS_MODEL) ∧
    (strContains s "Opus" = false → strContains s "Sonnet" = true →
      mapModelName s = ANTHROPIC_DEFAULT_SONNET_MODEL) ∧
    (strContains s "Opus" = false → strContains s "Sonnet" = false →
      strContains s "Haiku" = true →
      mapModelName s = ANTHROPIC_DEFAULT_HAIKU_MODEL) ∧
    (strContains s "Opus" = false → strContains s "Sonnet" = false →
      strContains s "Haiku" = false → mapModelName s = s) := by
  rw [mapModelName_eq]
  refine ⟨fun h1 => by simp [h1], fun h1 h2 => by simp [h1, h2],
    fun h1 h2 h3 => by simp [h1, h2, h3], fun h1 h2 h3 => by simp [h1, h2, h3]⟩

/-- C8 witness: `"Claude Opus 4"` contains `"Opus"` and maps to the
configured Opus display name, by the theorem applied at that input. -/
theorem C8_mapModelName_spec_witness :
    strContains "Claude Opus 4" "Opus" = true ∧
    mapModelName "Claude Opus 4" = ANTHROPIC_DEFAULT_OPUS_MODEL :=
  ⟨by decide, (C8_mapModelName_spec "Claude Opus 4").1 (by decide)⟩

/-! ## C10 -/

/-- C10: `mapModelName` erases the Opus/Sonnet distinction: every input
containing `"Opus"` and every input containing `"Sonnet"` (but not `"Opus"`)
map to the same display name `"GLM-4.7"`, so the function is not injective on
mapped names; only `"Haiku"` inputs map to the distinct `"GLM-4.5-Air"`. -/
theorem C10_mapModelName_collapse :
    (∀ s, strContains s "Opus" = true → mapModelName s = "GLM-4.7") ∧
    (∀ s, strContains s "Opus" = false → strContains s "Sonnet" = true →
      mapModelName s = "GLM-4.7") ∧
    (∀ s, strContains s "Opus" = false → strContains s "Sonnet" = false →
      strContains s "Haiku" = true → mapModelName s = "GLM-4.5-Air") ∧
    ("GLM-4.5-Air" : String) ≠ "GLM-4.7" ∧
    ("Claude Opus 4" : String) ≠ "Claude Sonnet 4.5" ∧
    mapModelName "Claude Opus 4" = mapModelName "Claude Sonnet 4.5" := by
  refine ⟨?_, ?_, ?_, by decide, by decide, ?_⟩
  · intro s h1; rw [mapModelName_eq]; simp [h1]; rfl
  · intro s h1 h2; rw [mapModelName_eq]; simp [h1, h2]; rfl
  · intro s h1 h2 h3; rw [mapModelName_eq]; simp [h1, h2, h3]; rfl
  · decide

/-- C10 witness: the collapse at two concrete distinct inputs, via the
theorem's first two conjuncts. -/
theorem C10_mapModelName_collapse_witness :
    strContains "Claude Opus 4" "Opus" = true ∧
    strContains "Claude Sonnet 4.5" "Opus" = false ∧
    strContains "Claude Sonnet 4.5" "Sonnet" = true ∧
    mapModelName "Claude Opus 4" = "GLM-4.7" ∧
    mapModelName "Claude Sonnet 4.5" = "GLM-4.7" :=
  ⟨by decide, by decide, by decide,
    C10_mapModelName_collapse.1 "Claude Opus 4" (by decide),
    C10_mapModelName_collapse.2.1 "Claude Sonnet 4.5" (by decide) (by decide)⟩

/-! ## C1 -/

/-- C1: when the loaded cache entry is valid, `fetchUsageData` returns that
entry's snapshot unchanged and issues no network request at all (no quota,
model-usage or tool-usage request); the cache check is the first step of the
aggregation, so it strictly precedes any network access. -/
theorem C1_cache_hit_no_network (c : CacheData) (authToken baseUrl : String)
    (nowTs : Int) (bd : Int → DateParts) (resp : NetResponses)
    (h : isCacheValid (some c) nowTs = true) :
    fetchUsageData (some c) authToken baseUrl nowTs bd resp =
      { result := c.data, requests := [] } := by
  unfold fetchUsageData
  simp [shouldUseCache, h]

/-- C1 witness: a concrete valid cache entry is returned as-is with an empty
request list. -/
theorem C1_cache_hit_no_network_witness :
    isCacheValid (some cacheEx) 101 = true ∧
    fetchUsageData (some cacheEx) "token" "https://api.z.ai" 101 bdEx respEx =
      { result := cacheEx.data, requests := [] } :=
  ⟨by decide,
    C1_cache_hit_no_network cacheEx "token" "https://api.z.ai" 101 bdEx respEx
      (by decide)⟩

/-! ## C4 -/

/-- C4: with no valid cache and an absent configuration (empty auth token,
empty base URL, or unresolved endpoints because the base URL matches no
supported domain), `fetchUsageData` returns the `setup_required` snapshot
with its zero-valued placeholder fields and issues no network request. -/
theorem C4_setup_required (cache : Option CacheData)
    (authToken baseUrl : String) (nowTs : Int) (bd : Int → DateParts)
    (resp : NetResponses) (hcache : isCacheValid cache nowTs = false)
    (hcfg : authToken = "" ∨ baseUrl = "" ∨ endpointsResolved baseUrl = false) :
    fetchUsageData cache authToken baseUrl nowTs bd resp =
      { result :=
          { error := some "setup_required", modelName := some "Opus",
            tokenPercent := some 0, mcpPercent := some 0,
            totalCost := some "0.00", timestamp := none,
            nextResetTime := none, nextResetTimeStr := none },
        requests := [] } := by
  unfold fetchUsageData
  rw [shouldUseCache_eq_none cache nowTs hcache]
  rcases hcfg with h | h | h <;> simp [h, setupRequiredSnapshot]

/-- C4 witness: `"https://example.com"` resolves no endpoints, and with an
empty cache the aggregation returns the `setup_required` snapshot without any
request, by the theorem applied at those inputs. -/
theorem C4_setup_required_witness :
    isCacheValid none 0 = false ∧
    endpointsResolved "https://example.com" = false ∧
    fetchUsageData none "token" "https://example.com" 0 bdEx respEx =
      { result :=
          { error := some "setup_required", modelName := some "Opus",
            tokenPercent := some 0, mcpPercent := some 0,
            totalCost := some "0.00", timestamp := none,
            nextResetTime := none, nextResetTimeStr := none },
        requests := [] } :=
  ⟨by decide, by decide,
    C4_setup_required none "token" "https://example.com" 0 bdEx respEx
      (by decide) (Or.inr (Or.inr (by decide)))⟩

/-! ## C3 -/

/-- C3: every snapshot `fetchUsageData` returns has `tokenPercent`,
`mcpPercent` and `totalCost` defined unless `error` is set, on every return
path: the `setup_required` path sets `error`, the live path sets all three
fields regardless of which of the three fetches failed (each failure only
degrades its own field group to its default), and the cache-hit path returns
the loaded entry's data, which satisfies the invariant whenever the cache was
written by a prior aggregation (`saveCache` is only called with the live-path
result, whose fields are all defined — that is the hypothesis `hc`). -/
theorem C3_snapshot_wellformed (cache : Option CacheData)
    (authToken baseUrl : String) (nowTs : Int) (bd : Int → DateParts)
    (resp : NetResponses)
    (hc : ∀ c, cache = some c → snapshotWellFormed c.data) :
    snapshotWellFormed
      (fetchUsageData cache authToken baseUrl nowTs bd resp).result := by
  unfold fetchUsageData
  cases cache with
  | none =>
    simp only [shouldUseCache]
    split
    · left; simp [setupRequiredSnapshot]
    · right; simp
  | some c =>
    by_cases hv : isCacheValid (some c) nowTs
    · simpa [shouldUseCache, hv] using hc c rfl
    · simp only [shouldUseCache, hv, Bool.false_eq_true, if_false]
      split
      · left; simp [setupRequiredSnapshot]
      · right; simp

/-- C3 witness: the theorem applied at a concrete cache entry written by a
prior live aggregation. -/
theorem C3_snapshot_wellformed_witness :
    (∀ c, (some cacheEx : Option CacheData) = some c →
      snapshotWellFormed c.data) ∧
    snapshotWellFormed
      (fetchUsageData (some cacheEx) "token" "https://api.z.ai" 101 bdEx
        respEx).result := by
  have hc : ∀ c, (some cacheEx : Option CacheData) = some c →
      snapshotWellFormed c.data := by
    intro c h
    simp only [Option.some.injEq] at h
    subst h
    decide
  exact ⟨hc,
    C3_snapshot_wellformed (some cacheEx) "token" "https://api.z.ai" 101 bdEx
      respEx hc⟩

/-! ## C5 -/

/-- C5: on the live path, the merge uses the tool-usage percent `t` whenever
it is strictly positive (overriding the quota-derived `mcpPercent` `q`), and
keeps the quota-derived value when `t = 0`. -/
theorem C5_merge_precedence (cache : Option CacheData)
    (authToken baseUrl : String) (nowTs : Int) (bd : Int → DateParts)
    (resp : NetResponses) (hcache : isCacheValid cache nowTs = false)
    (htok : authToken ≠ "") (hurl : baseUrl ≠ "")
    (hep : endpointsResolved baseUrl = true) :
    (0 < fetchToolUsage resp.toolUsage →
      (fetchUsageData cache authToken baseUrl nowTs bd resp).result.mcpPercent
        = some (fetchToolUsage resp.toolUsage)) ∧
    (fetchToolUsage resp.toolUsage = 0 →
      (fetchUsageData cache authToken baseUrl nowTs bd resp).result.mcpPercent
        = some ((fetchQuota resp.quota bd nowTs).mcpPercent)) := by
  unfold fetchUsageData
  rw [shouldUseCache_eq_none cache nowTs hcache]
  constructor
  · intro h
    simp [htok, hurl, hep, h]
  · intro h
    simp [htok, hurl, hep, h]

/-- A sample oracle for C5: the quota endpoint reports a `TIME_LIMIT` of 40
percent and the tool-usage endpoint returns 13 rows, giving the tool-usage
percent `min(100, 13 * 5) = 65`. -/
def respC5 : NetResponses :=
  ⟨some [⟨"TIME_LIMIT", some 40, none⟩], none, some (List.replicate 13 ())⟩

/-- C5 witness: with quota-derived `mcpPercent = 40` and tool-usage percent
`65 > 0`, the merged snapshot's `mcpPercent` is `65`, by the theorem applied
at that oracle. -/
theorem C5_merge_precedence_witness :
    isCacheValid none 0 = false ∧
    endpointsResolved "https://api.z.ai" = true ∧
    fetchToolUsage respC5.toolUsage = 65 ∧
    (fetchQuota respC5.quota bdEx 0).mcpPercent = 40 ∧
    (0 < fetchToolUsage respC5.toolUsage →
      (fetchUsageData none "token" "https://api.z.ai" 0 bdEx
        respC5).result.mcpPercent = some (fetchToolUsage respC5.toolUsage)) ∧
    (fetchToolUsage respC5.toolUsage = 0 →
      (fetchUsageData none "token" "https://api.z.ai" 0 bdEx
        respC5).result.mcpPercent =
        some ((fetchQuota respC5.quota bdEx 0).mcpPercent)) :=
  ⟨by decide, by decide, by decide,
    by simp [respC5, fetchQuota, quotaStep, orQZero, jsRound]; norm_num [Rat.floor],
    (C5_merge_precedence none "token" "https://api.z.ai" 0 bdEx respC5
      (by decide) (by decide) (by decide) (by decide)).1,
    (C5_merge_precedence none "token" "https://api.z.ai" 0 bdEx respC5
      (by decide) (by decide) (by decide) (by decide)).2⟩

/-! ## C6 -/

/-- Folding `sum + f item` over a list from `a` is `a` plus the sum of the
images — the bridge from the source's `reduce` to the specification's
"sum across all rows". -/
lemma foldl_add_eq_sum (f : UsageRow → ℚ) (a : ℚ) (rows : List UsageRow) :
    rows.foldl (fun sum item => sum + f item) a = a + (rows.map f).sum := by
  induction rows generalizing a with
  | nil => simp
  | cons r rs ih => simp [ih, add_assoc]

/-- Total input tokens over the returned rows (absent fields count as 0). -/
def sumInputTokens (rows : List UsageRow) : ℚ :=
  (rows.map (fun r => orQZero r.inputTokens)).sum

/-- Total output tokens over the returned rows (absent fields count as 0). -/
def sumOutputTokens (rows : List UsageRow) : ℚ :=
  (rows.map (fun r => orQZero r.outputTokens)).sum

/-- C6: for every nonempty row list, the model-usage cost is
`(sum inputTokens / 1,000,000) * 3 + (sum outputTokens / 1,000,000) * 15`
formatted to two decimals, and hence depends only on the token totals: every
partition of the rows whose input tokens sum to 2,000,000 and output tokens
sum to 1,000,000 yields `totalCost = "21.00"` (such a list is automatically
nonempty, the empty list having zero sums). -/
theorem C6_cost_partition_invariant (rows : List UsageRow) :
    (rows ≠ [] →
      (fetchModelUsage (some rows)).totalCost =
        toFixed2 (sumInputTokens rows / 1000000 * 3 +
          sumOutputTokens rows / 1000000 * 15)) ∧
    (sumInputTokens rows = 2000000 → sumOutputTokens rows = 1000000 →
      (fetchModelUsage (some rows)).totalCost = "21.00") := by
  have main : ∀ r0 rs, (fetchModelUsage (some (r0 :: rs))).totalCost =
      toFixed2 (sumInputTokens (r0 :: rs) / 1000000 * 3 +
        sumOutputTokens (r0 :: rs) / 1000000 * 15) := by
    intro r0 rs
    simp only [fetchModelUsage]
    rw [foldl_add_eq_sum, foldl_add_eq_sum]
    simp [sumInputTokens, sumOutputTokens]
  constructor
  · intro h
    cases rows with
    | nil => exact absurd rfl h
    | cons r0 rs => exact main r0 rs
  · intro h1 h2
    cases rows with
    | nil =>
      exfalso
      norm_num [sumInputTokens] at h1
    | cons r0 rs =>
      rw [main r0 rs, h1, h2]
      have hq : (2000000 : ℚ) / 1000000 * 3 + (1000000 : ℚ) / 1000000 * 15
          = 21 := by norm_num
      rw [hq]
      have h21 : ((21 : ℚ) * 100 + 1 / 2).floor = 2100 := by
        norm_num [Rat.floor]
      simp only [toFixed2]
      rw [h21]
      decide

/-- A sample two-row partition of 2,000,000 input and 1,000,000 output
tokens. -/
def rowsC6 : List UsageRow :=
  [⟨some "Claude Opus", some 1500000, some 400000⟩,
   ⟨none, some 500000, some 600000⟩]

/-- C6 witness: the theorem applied at a concrete two-row partition of the
token totals, yielding `"21.00"`. -/
theorem C6_cost_partition_invariant_witness :
    rowsC6 ≠ [] ∧
    sumInputTokens rowsC6 = 2000000 ∧
    sumOutputTokens rowsC6 = 1000000 ∧
    (fetchModelUsage (some rowsC6)).totalCost =
      toFixed2 (sumInputTokens rowsC6 / 1000000 * 3 +
        sumOutputTokens rowsC6 / 1000000 * 15) ∧
    (fetchModelUsage (some rowsC6)).totalCost = "21.00" := by
  have h1 : sumInputTokens rowsC6 = 2000000 := by
    norm_num [rowsC6, sumInputTokens, orQZero]
  have h2 : sumOutputTokens rowsC6 = 1000000 := by
    norm_num [rowsC6, sumOutputTokens, orQZero]
  exact ⟨by simp [rowsC6], h1, h2,
    (C6_cost_partition_invariant rowsC6).1 (by simp [rowsC6]),
    (C6_cost_partition_invariant rowsC6).2 h1 h2⟩

/-! ## C7 -/

/-- The last entry of a given `type` in the limits list, in list order. -/
def lastOfType (ty : String) (limits : List LimitEntry) : Option LimitEntry :=
  (limits.filter (fun l => l.type == ty)).getLast?

/-- The quota loop, folded from any accumulator, ends at the last matching
entry of each type (or keeps the accumulator's component when no entry of
that type occurs). -/
lemma quotaFold_eq (limits : List LimitEntry) (acc : Int × Int × Option Int) :
    limits.foldl quotaStep acc =
      ((match lastOfType "TOKENS_LIMIT" limits with
        | some e => jsRound (orQZero e.percentage)
        | none => acc.1),
       (match lastOfType "TIME_LIMIT" limits with
        | some e => jsRound (orQZero e.percentage)
        | none => acc.2.1),
       (match lastOfType "TOKENS_LIMIT" limits with
        | some e => e.nextResetTime
        | none => acc.2.2)) := by
  induction limits using List.reverseRecOn generalizing acc with
  | nil => simp [lastOfType]
  | append_singleton l x ih =>
    rw [List.foldl_append, ih]
    by_cases h1 : x.type = "TOKENS_LIMIT"
    · have h2 : x.type ≠ "TIME_LIMIT" := by simp [h1]
      simp [lastOfType, quotaStep, List.filter_append, h1, h2]
    · by_cases h2 : x.type = "TIME_LIMIT"
      · simp [lastOfType, quotaStep, List.filter_append, h1, h2]
      · simp [lastOfType, quotaStep, List.filter_append, h1, h2]

/-- C7: quota extraction iterates the limits list; the `TOKENS_LIMIT` entry's
percentage (rounded, 0 when absent) becomes `tokenPercent` and its
`nextResetTime` is carried through; the `TIME_LIMIT` entry's percentage
becomes the fallback `mcpPercent`; with several entries of one type, the last
in list order determines the result (and the defaults 0 / absent apply when
no entry of the type occurs). -/
theorem C7_quota_last_entry_wins (limits : List LimitEntry)
    (bd : Int → DateParts) (nowTs : Int) :
    (fetchQuota (some limits) bd nowTs).tokenPercent =
      (match lastOfType "TOKENS_LIMIT" limits with
       | some e => jsRound (orQZero e.percentage)
       | none => 0) ∧
    (fetchQuota (some limits) bd nowTs).nextResetTime =
      (match lastOfType "TOKENS_LIMIT" limits with
       | some e => e.nextResetTime
       | none => none) ∧
    (fetchQuota (some limits) bd nowTs).mcpPercent =
      (match lastOfType "TIME_LIMIT" limits with
       | some e => jsRound (orQZero e.percentage)
       | none => 0) := by
  simp [fetchQuota, quotaFold_eq]

/-! ## C9 -/

/-- The boolean `toDateString` comparison agrees with the spec-side
same-local-calendar-day predicate. -/
lemma sameDateString_iff (a b : DateParts) :
    sameDateString a b = true ↔ sameCalendarDay a b := by
  unfold sameDateString sameCalendarDay
  simp [Bool.and_eq_true, and_assoc]

/-- A component in `[0, 100)` renders as exactly two characters after
zero-padding. -/
lemma pad2_length (n : Int) (h1 : 0 ≤ n) (h2 : n < 100) :
    (pad2 n).length = 2 := by
  interval_cases n <;> rfl

/-- C9: `formatResetTime` renders `"HH:mm"` (two zero-padded components,
5 characters) exactly when the timestamp falls on the same local calendar day
as the current time, and `"MM/dd HH:mm"` (four zero-padded components, 11
characters) otherwise, for any in-range local decomposition of the
timestamp. -/
theorem C9_formatResetTime_shape (bd : Int → DateParts) (ts nowTs : Int)
    (hh1 : 0 ≤ (bd ts).hours) (hh2 : (bd ts).hours < 24)
    (hm1 : 0 ≤ (bd ts).minutes) (hm2 : (bd ts).minutes < 60)
    (hmo1 : 0 ≤ (bd ts).month) (hmo2 : (bd ts).month < 12)
    (hd1 : 1 ≤ (bd ts).date) (hd2 : (bd ts).date ≤ 31) :
    (sameCalendarDay (bd ts) (bd nowTs) →
      formatResetTime bd ts nowTs =
        pad2 (bd ts).hours ++ ":" ++ pad2 (bd ts).minutes ∧
      (formatResetTime bd ts nowTs).length = 5) ∧
    (¬ sameCalendarDay (bd ts) (bd nowTs) →
      formatResetTime bd ts nowTs =
        pad2 ((bd ts).month + 1) ++ "/" ++ pad2 (bd ts).date ++ " " ++
          pad2 (bd ts).hours ++ ":" ++ pad2 (bd ts).minutes ∧
      (formatResetTime bd ts nowTs).length = 11) := by
  constructor
  · intro hsame
    have hb : sameDateString (bd ts) (bd nowTs) = true :=
      (sameDateString_iff _ _).mpr hsame
    have he : formatResetTime bd ts nowTs =
        pad2 (bd ts).hours ++ ":" ++ pad2 (bd ts).minutes := by
      unfold formatResetTime
      simp [hb]
    have lh : (pad2 (bd ts).hours).length = 2 := pad2_length _ hh1 (by omega)
    have lm : (pad2 (bd ts).minutes).length = 2 :=
      pad2_length _ hm1 (by omega)
    refine ⟨he, ?_⟩
    rw [he]
    simp only [String.length_append, lh, lm]
    rfl
  · intro hdiff
    have hb : sameDateString (bd ts) (bd nowTs) = false := by
      rcases Bool.eq_false_or_eq_true (sameDateString (bd ts) (bd nowTs)) with
        h | h
      · exact absurd ((sameDateString_iff _ _).mp h) hdiff
      · exact h
    have he : formatResetTime bd ts nowTs =
        pad2 ((bd ts).month + 1) ++ "/" ++ pad2 (bd ts).date ++ " " ++
          pad2 (bd ts).hours ++ ":" ++ pad2 (bd ts).minutes := by
      unfold formatResetTime
      simp only [hb, Bool.false_eq_true, if_false]
    have lh : (pad2 (bd ts).hours).length = 2 := pad2_length _ hh1 (by omega)
    have lm : (pad2 (bd ts).minutes).length = 2 :=
      pad2_length _ hm1 (by omega)
    have lmo : (pad2 ((bd ts).month + 1)).length = 2 :=
      pad2_length _ (by omega) (by omega)
    have ld : (pad2 (bd ts).date).length = 2 :=
      pad2_length _ (by omega) (by omega)
    refine ⟨he, ?_⟩
    rw [he]
    simp only [String.length_append, lh, lm, lmo, ld]
    rfl

/-- A sample local-time decomposition for C9: timestamp 0 falls on
2026-01-21 20:16 local time, every other timestamp on 2026-01-22 08:05. -/
def bd9 : Int → DateParts := fun t =>
  if t = 0 then ⟨2026, 0, 21, 20, 16, 0⟩ else ⟨2026, 0, 22, 8, 5, 0⟩

/-- C9 witness: the theorem applied with `bd9` at a timestamp one day after
now, rendering `"01/22 08:05"`; the same-day conclusion is also delivered for
timestamp 0 against itself, rendering `"20:16"`. -/
theorem C9_formatResetTime_shape_witness :
    (0 ≤ (bd9 1).hours ∧ (bd9 1).hours < 24 ∧
     0 ≤ (bd9 1).minutes ∧ (bd9 1).minutes < 60 ∧
     0 ≤ (bd9 1).month ∧ (bd9 1).month < 12 ∧
     1 ≤ (bd9 1).date ∧ (bd9 1).date ≤ 31) ∧
    ¬ sameCalendarDay (bd9 1) (bd9 0) ∧
    (formatResetTime bd9 1 0 =
      pad2 ((bd9 1).month + 1) ++ "/" ++ pad2 (bd9 1).date ++ " " ++
        pad2 (bd9 1).hours ++ ":" ++ pad2 (bd9 1).minutes ∧
     (formatResetTime bd9 1 0).length = 11) :=
  ⟨by decide, by decide,
    (C9_formatResetTime_shape bd9 1 0 (by decide) (by decide) (by decide)
      (by decide) (by decide) (by decide) (by decide) (by decide)).2
      (by decide)⟩
